import Mathlib

/-
Verification of the terrain, resource, unit and wave-director core of the
vibe-game repository, shallowly embedded in Lean 4.

JavaScript numbers are modelled as rationals; the arithmetic under
verification (bilinear interpolation, health bookkeeping, wave counters)
is exact at the inputs considered.  Maps keyed by chunk-coordinate
strings are modelled as functions from integer pairs to options, which
makes the one-chunk-per-key property structural.  Timer callbacks
(setTimeout) are modelled by explicit pending-callback counters or
scheduled fire times, and Math.random() by explicit parameters.
-/

namespace VibeGame

/-- Resource kinds handled by the inventory (wood, stone). -/
inductive ResourceType
  | wood
  | stone
deriving DecidableEq

/-- Observable side effects of the embedded operations: event-bus emits,
inventory credits, DOM overlays and scene disposals. -/
inductive Effect
  | enemyRemoved
  | enemySpawned
  | enemyDisposed
  | gameOverShown
  | addItem (t : ResourceType) (n : ℤ)
  | waveCompletedShown (wood stone : ℤ)
deriving DecidableEq

/-- A THREE.Vector3, restricted to the rational coordinates we use. -/
structure Vec3 where
  x : ℚ
  y : ℚ
  z : ℚ
deriving DecidableEq

/-- Squared Euclidean distance between two points. -/
def distSq (p q : Vec3) : ℚ :=
  (p.x - q.x) ^ 2 + (p.y - q.y) ^ 2 + (p.z - q.z) ^ 2

/-- Embedding of the comparison `position.distanceTo(q) < radius` without
square roots: for a positive radius it is equivalent to comparing the
squares, and for a non-positive radius it is false. -/
def distanceLt (p q : Vec3) (r : ℚ) : Bool :=
  decide (0 < r) && decide (distSq p q < r ^ 2)

/-- An entry of the flat cross-chunk object registry `World.objects`
(a Tree or Rock as seen by World).  `hasDispose` records whether the
object class defines a `dispose` method: `World.removeChunk` probes for
one before calling it, and neither `InteractiveObject` (part_003) nor
`Tree` (part_002) nor `Rock` (Rock.js) defines any, so for every resource
node this flag is false. -/
structure WorldObject where
  id : ℕ
  position : Vec3
  interactionEnabled : Bool
  hasDispose : Bool
deriving DecidableEq

/-- A terrain chunk (part_001, `generateChunk`): grid coordinates, the
stored height-sample grid (32 samples per row, row major, matching the
indexing in `getHeightAt`; `none` until generated), the owned objects and
whether a terrain mesh is attached. -/
structure Chunk where
  x : ℤ
  z : ℤ
  heightMap : Option (List ℚ)
  objects : List WorldObject
  hasTerrain : Bool
deriving DecidableEq

/-- The World (part_001): the chunk map keyed by integer chunk
coordinates (JS uses the string key `x,z`, which is in bijection with the
pair, and a Map holds at most one chunk per key), the flat object
registry, the last observer chunk, and the physics bookkeeping. -/
structure World where
  chunks : ℤ × ℤ → Option Chunk
  objects : List WorldObject
  lastPlayerChunkCoords : Option (ℤ × ℤ)
  physicsEnabled : Bool
  terrainBodies : ℤ × ℤ → Bool

/-- `this.chunkSize = 50` (part_001 line 15). -/
def chunkSize : ℚ := 50

/-- `this.viewDistance = 2` (part_001 line 16). -/
def viewDistance : ℤ := 2

/-- Chunk key of a world position: `Math.floor(x / chunkSize)` for each
axis (part_001 lines 338-340). -/
def chunkKeyOf (x z : ℚ) : ℤ × ℤ := (⌊x / chunkSize⌋, ⌊z / chunkSize⌋)

/-- `localX = x - chunkX * this.chunkSize` (part_001 lines 346-347). -/
def localCoord (t : ℚ) : ℚ := t - ⌊t / chunkSize⌋ * chunkSize

/-- `gridX = (localX / this.chunkSize) * terrainResolution` with
`terrainResolution = 32` (part_001 lines 350-352). -/
def gridCoord (t : ℚ) : ℚ := localCoord t / chunkSize * 32

/-- `x0 = Math.floor(gridX)` (part_001 line 355). -/
def cellIndex0 (t : ℚ) : ℤ := ⌊gridCoord t⌋

/-- `x1 = Math.min(x0 + 1, terrainResolution - 1)` (part_001 line 357). -/
def cellIndex1 (t : ℚ) : ℤ := min (cellIndex0 t + 1) 31

/-- `fracX = gridX - x0` (part_001 line 366). -/
def fracCoord (t : ℚ) : ℚ := gridCoord t - cellIndex0 t

/-- `chunk.heightMap[ix + iz * terrainResolution]` (part_001
lines 370-373); indices produced by `getHeightAt` are always in range. -/
def hmAt (m : List ℚ) (ix iz : ℤ) : ℚ := m.getD (ix + iz * 32).toNat 0

/-- `World.getHeightAt` (part_001 lines 336-381): resolve the containing
chunk, return 0 when it (or its height map) is absent, otherwise check
grid bounds and bilinearly interpolate the four surrounding stored
samples. -/
def World.getHeightAt (w : World) (x z : ℚ) : ℚ :=
  match w.chunks (chunkKeyOf x z) with
  | none => 0
  | some chunk =>
    match chunk.heightMap with
    | none => 0
    | some m =>
      if cellIndex0 x < 0 ∨ 32 ≤ cellIndex0 x ∨ cellIndex0 z < 0 ∨ 32 ≤ cellIndex0 z then 0
      else
        let h00 := hmAt m (cellIndex0 x) (cellIndex0 z)
        let h10 := hmAt m (cellIndex1 x) (cellIndex0 z)
        let h01 := hmAt m (cellIndex0 x) (cellIndex1 z)
        let h11 := hmAt m (cellIndex1 x) (cellIndex1 z)
        let hx0 := h00 * (1 - fracCoord x) + h10 * fracCoord x
        let hx1 := h01 * (1 - fracCoord x) + h11 * fracCoord x
        hx0 * (1 - fracCoord z) + hx1 * fracCoord z

/-- Concrete height map for the C1 test chunk: entries 0, 1, 32, 33 of
the row-major grid are 1, 3, 5, 7, so grid cell (0,0) has stored corner
samples h00 = 1, h10 = 3, h01 = 5, h11 = 7; all other reads default
to 0. -/
def heightMapC1 : List ℚ :=
  [1, 3, 0, 0, 0, 0, 0, 0, 0, 0, 0, 0, 0, 0, 0, 0,
   0, 0, 0, 0, 0, 0, 0, 0, 0, 0, 0, 0, 0, 0, 0, 0, 5, 7]

/-- The C1 test chunk at chunk coordinates (0,0). -/
def chunkC1 : Chunk :=
  { x := 0, z := 0, heightMap := some heightMapC1, objects := [], hasTerrain := true }

/-- A world holding exactly the C1 test chunk. -/
def worldC1 : World :=
  { chunks := fun k => if k = (0, 0) then some chunkC1 else none
    objects := []
    lastPlayerChunkCoords := none
    physicsEnabled := false
    terrainBodies := fun _ => false }

/-- List of consecutive integers `a, a+1, ..., a+n-1`, modelling a JS
`for` loop range. -/
def intRange (a : ℤ) (n : ℕ) : List ℤ := (List.range n).map fun i => a + i

/-- Membership test of the nested loops of `updateChunksAroundPlayer`
(part_001 lines 71-72): `playerChunkX - viewDistance <= x <= playerChunkX
+ viewDistance` and likewise for z. -/
def inView (pc k : ℤ × ℤ) : Bool :=
  (decide (pc.1 - viewDistance ≤ k.1) && decide (k.1 ≤ pc.1 + viewDistance)) &&
  (decide (pc.2 - viewDistance ≤ k.2) && decide (k.2 ≤ pc.2 + viewDistance))

/-- Iteration order of the two nested loops (x outer, z inner) over the
(2 viewDistance + 1) squared keys around the player chunk. -/
def squareKeys (pc : ℤ × ℤ) : List (ℤ × ℤ) :=
  (intRange (pc.1 - viewDistance) (2 * viewDistance.toNat + 1)).flatMap fun cx =>
    (intRange (pc.2 - viewDistance) (2 * viewDistance.toNat + 1)).map fun cz => (cx, cz)

/-- `World.updateChunksAroundPlayer` (part_001 lines 66-89): every key
within view distance keeps its resident chunk or is generated (`gen`
stands for `generateChunk`, whose terrain sampling and random population
are external inputs here), every other resident chunk is removed; the
objects of newly generated chunks are pushed onto the flat registry by
`populateChunk` (part_001 lines 245-287). -/
def World.updateChunksAroundPlayer (w : World) (pc : ℤ × ℤ) (gen : ℤ × ℤ → Chunk) : World :=
  { w with
    chunks := fun k => if inView pc k then some ((w.chunks k).getD (gen k)) else none
    objects := w.objects ++
      (((squareKeys pc).filter fun k => (w.chunks k).isNone).flatMap fun k => (gen k).objects) }

/-- `World.update` restricted to chunk streaming (part_001 lines 41-56):
compute the observer chunk key; when it differs from the last observed
key, record it and reconcile the chunk map. -/
def World.update (w : World) (px pz : ℚ) (gen : ℤ × ℤ → Chunk) : World :=
  let cc := chunkKeyOf px pz
  if w.lastPlayerChunkCoords = some cc then w
  else World.updateChunksAroundPlayer { w with lastPlayerChunkCoords := some cc } cc gen

/-- A chunk key is resident when the map holds a chunk for it. -/
def World.Resident (w : World) (k : ℤ × ℤ) : Prop := (w.chunks k).isSome = true

/-- Residency invariant maintained by `World.update`: whenever a last
observer chunk is recorded, the resident keys are exactly the view
square around it. -/
def ResidencyInv (w : World) : Prop :=
  ∀ cc, w.lastPlayerChunkCoords = some cc → ∀ k, w.Resident k ↔ inView cc k = true

/-- The world as built by the constructor (part_001 lines 8-29): empty
chunk map, empty registry, no last observer chunk. -/
def initialWorld : World :=
  { chunks := fun _ => none
    objects := []
    lastPlayerChunkCoords := none
    physicsEnabled := false
    terrainBodies := fun _ => false }

/-- `World.removeChunk` (part_001 lines 115-147), state part: when the
key is resident the chunk is deleted from the map and its physics body
entry (when physics is enabled) is dropped.  The flat registry
`this.objects` is not touched anywhere in the function. -/
def World.removeChunk (w : World) (key : ℤ × ℤ) : World :=
  match w.chunks key with
  | none => w
  | some _ =>
    { w with
      chunks := fun k => if k = key then none else w.chunks k
      terrainBodies := fun k =>
        if w.physicsEnabled ∧ k = key then false else w.terrainBodies k }

/-- Disposal actions `World.removeChunk` can perform on eviction. -/
inductive EvictEffect
  | disposeTerrain
  | disposeObject (id : ℕ)
  | removePhysicsBody
  | cancelRespawnTimer (id : ℕ)
deriving DecidableEq

/-- Effect part of `World.removeChunk` (part_001 lines 115-147), in
source order: dispose the terrain mesh when present; for each owned
object, call `dispose` only when the object defines one (the guard
`typeof object.dispose === 'function'` on line 131); remove the physics
body when physics is enabled and one is stored.  No statement of the
function touches any timer, so no `cancelRespawnTimer` action is ever
produced. -/
def World.removeChunkEffects (w : World) (key : ℤ × ℤ) : List EvictEffect :=
  match w.chunks key with
  | none => []
  | some c =>
    (if c.hasTerrain then [EvictEffect.disposeTerrain] else [])
    ++ ((c.objects.filter fun o => o.hasDispose).map fun o => EvictEffect.disposeObject o.id)
    ++ (if w.physicsEnabled ∧ w.terrainBodies key then [EvictEffect.removePhysicsBody] else [])

/-- `World.checkInteraction` (part_001 lines 383-394): first registry
object within the radius that can be interacted with. -/
def World.checkInteraction (w : World) (p : Vec3) (radius : ℚ) : Option WorldObject :=
  w.objects.find? fun o => distanceLt p o.position radius && o.interactionEnabled

/-- `World.getObjectsNear` (part_001 lines 397-402): all registry
objects within the radius. -/
def World.getObjectsNear (w : World) (p : Vec3) (radius : ℚ) : List WorldObject :=
  w.objects.filter fun o => distanceLt p o.position radius

/-- The formalized C9 claim sentence at a given world, evicted key and
set of pending respawn-timer owner ids: on eviction every owned resource
node is disposed, every pending respawn timer owned by an evicted node
is cancelled, and the chunk leaves the map.  Stated from the claim text
for refutation; compare with `World.removeChunkEffects`. -/
def evictionClaimAt (w : World) (key : ℤ × ℤ) (pendingTimerIds : List ℕ) : Prop :=
  match w.chunks key with
  | none => True
  | some c =>
    (∀ o ∈ c.objects, EvictEffect.disposeObject o.id ∈ w.removeChunkEffects key)
    ∧ (∀ i ∈ pendingTimerIds, (∃ o ∈ c.objects, o.id = i) →
        EvictEffect.cancelRespawnTimer i ∈ w.removeChunkEffects key)
    ∧ (World.removeChunk w key).chunks key = none

/-- The tree owned by the C9 fixture chunk; no `dispose` method exists
on `Tree`, `Rock` or `InteractiveObject`, so `hasDispose` is false. -/
def treeObjC9 : WorldObject :=
  { id := 7, position := ⟨1, 0, 1⟩, interactionEnabled := true, hasDispose := false }

/-- The C9 chunk fixture at key (0,0) owning one tree. -/
def chunkC9 : Chunk :=
  { x := 0, z := 0, heightMap := none, objects := [treeObjC9], hasTerrain := true }

/-- World fixture for C9: one resident chunk owning one tree whose
respawn timer (owner id 7) is pending. -/
def worldC9 : World :=
  { chunks := fun k => if k = (0, 0) then some chunkC9 else none
    objects := chunkC9.objects
    lastPlayerChunkCoords := some (0, 0)
    physicsEnabled := true
    terrainBodies := fun k => k = (0, 0) }

/-- The tree registered in both the C10 fixture chunk and registry. -/
def treeObjC10 : WorldObject :=
  { id := 3, position := ⟨1, 0, 1⟩, interactionEnabled := true, hasDispose := false }

/-- World fixture for C10: one resident chunk owning one tree that is
also in the flat registry. -/
def worldC10 : World :=
  { chunks := fun k => if k = (0, 0) then
      some { x := 0, z := 0, heightMap := none, objects := [treeObjC10], hasTerrain := true }
    else none
    objects := [treeObjC10]
    lastPlayerChunkCoords := some (0, 0)
    physicsEnabled := false
    terrainBodies := fun _ => false }

/-- A harvested resource yield `{ type, amount }` returned by
`interact`. -/
structure Reward where
  type : ResourceType
  amount : ℤ
deriving DecidableEq

/-- A Tree (part_002 lines 1245-1353): health 100, wood, full yield 3,
respawn delay 30 s; `interactionEnabled` is inherited from
`InteractiveObject` (part_003) and starts true; `scale` mirrors the
visual `object.scale.x`. -/
structure Tree where
  health : ℤ
  resourceType : ResourceType
  resourceAmount : ℤ
  respawnTime : ℚ
  interactionEnabled : Bool
  visible : Bool
  scale : ℚ
deriving DecidableEq

/-- The Tree constructor values (part_002 lines 1250-1253). -/
def Tree.new : Tree :=
  { health := 100, resourceType := ResourceType.wood, resourceAmount := 3
    respawnTime := 30, interactionEnabled := true, visible := true, scale := 1 }

/-- `InteractiveObject.canInteract` (part_003 lines 23-25). -/
def Tree.canInteract (t : Tree) : Bool := t.interactionEnabled

/-- `Tree.interact` (part_002 lines 1300-1326): no-op returning null
outside `canInteract`; otherwise health loses 25 and the scale dips;
at health at most 0 the tree is hidden, interaction is disabled, a
respawn timer is scheduled (third component true) and the full yield is
returned; otherwise the yield is 1 unit. -/
def Tree.interact (t : Tree) : Tree × Option Reward × Bool :=
  if !t.canInteract then (t, none, false)
  else
    let t1 := { t with health := t.health - 25, scale := 95 / 100 }
    if t1.health ≤ 0 then
      ({ t1 with visible := false, interactionEnabled := false },
       some { type := t1.resourceType, amount := t1.resourceAmount }, true)
    else
      (t1, some { type := t1.resourceType, amount := 1 }, false)

/-- `Tree.respawn` (part_002 lines 1328-1338): health reset to 100,
scale reset, visible and interactable again. -/
def Tree.respawn (t : Tree) : Tree :=
  { t with health := 100, scale := 1, visible := true, interactionEnabled := true }

/-- A Tree together with its pending `setTimeout(() => this.respawn(),
respawnTime * 1000)` fire time, in seconds of wall-clock time. -/
structure TimedTree where
  tree : Tree
  pendingRespawn : Option ℚ
deriving DecidableEq

/-- `interact` at wall-clock time `now`: the respawn timer, when
scheduled, fires at `now + respawnTime`. -/
def TimedTree.interact (s : TimedTree) (now : ℚ) : TimedTree × Option Reward :=
  let r := s.tree.interact
  ({ tree := r.1
     pendingRespawn := if r.2.2 then some (now + r.1.respawnTime) else s.pendingRespawn },
   r.2.1)

/-- Advance wall-clock time to `now`, firing the pending respawn timer
when due. -/
def TimedTree.elapseTo (s : TimedTree) (now : ℚ) : TimedTree :=
  match s.pendingRespawn with
  | some tf => if tf ≤ now then { tree := s.tree.respawn, pendingRespawn := none } else s
  | none => s

/-- Behaviour states of an `EnemyUnit` (part_002 line 557). -/
inductive EnemyAIState
  | chase
  | attack
  | wander
  | die
deriving DecidableEq

/-- The death loot payload of `EnemyUnit.die` (part_002
lines 1152-1158). -/
structure Loot where
  experience : ℚ
  resType : ResourceType
  resAmount : ℤ
deriving DecidableEq

/-- An `EnemyUnit` (part_002 lines 539-568) restricted to the combat
fields; `experience` is `attributes.experience || 10`. -/
structure EnemyUnit where
  health : ℚ
  maxHealth : ℚ
  damage : ℚ
  isAlive : Bool
  state : EnemyAIState
  experience : ℚ
deriving DecidableEq

/-- `EnemyUnit.die` (part_002 lines 1111-1159): the double-call guard
returns immediately (with no loot and no notification) when `isAlive`
is already false; otherwise the unit transitions to the dead state,
`notifyDeath` emits `enemyRemoved`, and the loot payload is returned.
`r1` and `r2` stand for the two `Math.random()` draws picking the
resource type (wood below 0.6) and amount (`Math.floor(r2 * 3) + 1`). -/
def EnemyUnit.die (e : EnemyUnit) (r1 r2 : ℚ) : EnemyUnit × Option Loot × List Effect :=
  if e.isAlive = false then (e, none, [])
  else
    ({ e with isAlive := false, state := EnemyAIState.die },
     some { experience := e.experience
            resType := if r1 < 3 / 5 then ResourceType.wood else ResourceType.stone
            resAmount := ⌊r2 * 3⌋ + 1 },
     [Effect.enemyRemoved])

/-- `EnemyUnit.takeDamage` (part_002 lines 995-1022): returns 0 and does
nothing when not alive; otherwise subtracts the damage (with no clamp),
and when the result is at most 0 sets `isAlive` to false and the state
to dead before calling `die()` (whose return value is discarded).
Returns the resulting unit, the damage dealt and the emitted events. -/
def EnemyUnit.takeDamage (e : EnemyUnit) (amount r1 r2 : ℚ) : EnemyUnit × ℚ × List Effect :=
  if e.isAlive = false then (e, 0, [])
  else
    let e1 := { e with health := e.health - amount }
    if e1.health ≤ 0 then
      let e2 := { e1 with isAlive := false, state := EnemyAIState.die }
      let d := e2.die r1 r2
      (d.1, amount, d.2.2)
    else
      (e1, amount, [])

/-- An `AnimalUnit` (part_002 lines 3-65) restricted to its health
fields. -/
structure AnimalUnit where
  health : ℚ
  maxHealth : ℚ
deriving DecidableEq

/-- `AnimalUnit.takeDamage` (part_002 lines 497-506): subtract, then
clamp at 0; no death event is emitted (removal is left to the owning
system). -/
def AnimalUnit.takeDamage (u : AnimalUnit) (amount : ℚ) : AnimalUnit :=
  let u1 := { u with health := u.health - amount }
  if u1.health ≤ 0 then { u1 with health := 0 } else u1

/-- The Objective (Game.js lines 201-251) restricted to its health
fields. -/
structure Objective where
  health : ℚ
  maxHealth : ℚ
deriving DecidableEq

/-- `objective.takeDamage` (Game.js lines 210-237): subtract, clamp at 0
with `Math.max`, then call `objectiveDestroyed()` (which shows the game
over overlay, with no once-only guard) whenever the resulting health is
at most 0; returns the resulting health. -/
def Objective.takeDamage (o : Objective) (amount : ℚ) : Objective × ℚ × List Effect :=
  let o1 := { o with health := max 0 (o.health - amount) }
  if o1.health ≤ 0 then (o1, o1.health, [Effect.gameOverShown])
  else (o1, o1.health, [])

/-- `Math.min(5 + this.waveNumber * 2, 30)`, the total enemy count of a
wave (PhysicsSystem.js line 1579). -/
def enemiesForWave (w : ℕ) : ℤ := min (5 + (w : ℤ) * 2) 30

/-- `Math.min(3 + Math.floor(this.waveNumber / 2), 10)`, the size of the
initial burst (PhysicsSystem.js line 1588). -/
def initialSpawnCount (w : ℕ) : ℕ := min (3 + w / 2) 10

/-- `Math.min(1 + Math.floor(this.waveNumber / 3), this.enemiesRemaining,
3)`, the size of a follow-up batch (PhysicsSystem.js lines 1654-1658). -/
def nextBatchSize (w rem : ℕ) : ℕ := min (min (1 + w / 3) rem) 3

/-- Delays, in milliseconds, of the initial-burst spawns: the loop of
`startNextWave` schedules spawn number i after `i * 500` ms
(PhysicsSystem.js lines 1593-1599). -/
def initialSpawnDelays (w : ℕ) : List ℕ := (List.range (initialSpawnCount w)).map fun i => i * 500

/-- `4000 + Math.random() * 4000` ms, the delay before the next batch
(PhysicsSystem.js line 1661), with the `Math.random()` draw explicit. -/
def interBatchDelay (r : ℚ) : ℚ := 4000 + r * 4000

/-- Successive batch sizes produced when every scheduled follow-up batch
fires: each batch takes `nextBatchSize` enemies off the residual count
and a new batch is scheduled while anything remains
(PhysicsSystem.js lines 1639-1664). -/
def batchSizes (w : ℕ) : ℕ → List ℕ
  | 0 => []
  | rem + 1 => nextBatchSize w (rem + 1) :: batchSizes w (rem + 1 - nextBatchSize w (rem + 1))
decreasing_by
  have h1 : 1 ≤ nextBatchSize w (rem + 1) := by
    unfold nextBatchSize
    omega
  omega

/-- The `EnemySystem` wave-pacing state (PhysicsSystem.js
lines 1059-1081 and the fields set during waves).  `enemies` is the
roster length (an integer so that the accounting identity over event
traces is unconditional; the source only ever removes present roster
entries, keeping it non-negative); `pendingSpawnCallbacks` counts the
scheduled single-spawn `setTimeout` callbacks that have not fired yet;
`nextSpawnTimeout` records whether a follow-up batch timeout is armed;
times are wall-clock seconds. -/
structure EnemySystem where
  enemies : ℤ
  enemiesRemaining : ℤ
  waveNumber : ℕ
  waveInProgress : Bool
  timeUntilNextWave : ℚ
  nextSpawnTimeout : Bool
  waveStartTime : Option ℚ
  lastSpawnTime : Option ℚ
  pendingSpawnCallbacks : ℕ
deriving DecidableEq

/-- The EnemySystem constructor state (PhysicsSystem.js
lines 1068-1081). -/
def initSystem : EnemySystem :=
  { enemies := 0, enemiesRemaining := 0, waveNumber := 0, waveInProgress := false
    timeUntilNextWave := 5, nextSpawnTimeout := false
    waveStartTime := none, lastSpawnTime := none, pendingSpawnCallbacks := 0 }

/-- `EnemySystem.startNextWave` (PhysicsSystem.js lines 1562-1600):
increments the wave number, marks the wave in progress, records the
start and last-spawn times, sets the pending-spawn count to the wave
total, and schedules the initial burst of single-spawn callbacks
500 ms apart.  The roster is left as it is (enemies surviving the
previous wave stay alive). -/
def EnemySystem.startNextWave (s : EnemySystem) (now : ℚ) : EnemySystem :=
  { s with
    waveNumber := s.waveNumber + 1
    waveInProgress := true
    waveStartTime := some now
    lastSpawnTime := some now
    enemiesRemaining := enemiesForWave (s.waveNumber + 1)
    pendingSpawnCallbacks := s.pendingSpawnCallbacks + initialSpawnCount (s.waveNumber + 1) }

/-- `EnemySystem.completeWave` (PhysicsSystem.js lines 1832-1896):
cancels any pending batch timeout, force-disposes any enemies still on
the field, credits the wood and stone rewards computed from the wave
number and the not-yet-spawned count, clears the wave flags and sets the
countdown to the next wave. -/
def EnemySystem.completeWave (s : EnemySystem) : EnemySystem × List Effect :=
  ({ s with
      nextSpawnTimeout := false
      enemies := 0
      waveInProgress := false
      timeUntilNextWave := 20 + (s.waveNumber : ℚ) * 2
      enemiesRemaining := 0 },
   [Effect.addItem ResourceType.wood ((s.waveNumber : ℤ) * 3 + s.enemiesRemaining * 2),
    Effect.addItem ResourceType.stone ((s.waveNumber : ℤ) + s.enemiesRemaining),
    Effect.waveCompletedShown ((s.waveNumber : ℤ) * 3 + s.enemiesRemaining * 2)
      ((s.waveNumber : ℤ) + s.enemiesRemaining)])

/-- Synchronous part of `EnemySystem.spawnWaveEnemies` (PhysicsSystem.js
lines 1602-1665): refresh the last-spawn time, schedule
`Math.min(count, enemiesRemaining)` single-spawn callbacks (the
decrements happen later, inside those callbacks), and re-arm the
follow-up batch timeout while anything remains to spawn. -/
def EnemySystem.spawnWaveEnemies (s : EnemySystem) (count : ℤ) (now : ℚ) : EnemySystem :=
  let s1 := { s with lastSpawnTime := some now }
  let actual := min count s1.enemiesRemaining
  let s2 := { s1 with pendingSpawnCallbacks := s1.pendingSpawnCallbacks + actual.toNat }
  if 0 < s2.enemiesRemaining then { s2 with nextSpawnTimeout := true } else s2

/-- The 60 s wave watchdog condition (PhysicsSystem.js lines 1406-1413):
a wave in progress with a recorded start more than 60 s ago and no live
enemies. -/
def EnemySystem.waveWatchdogFires (s : EnemySystem) (now : ℚ) : Bool :=
  s.waveInProgress &&
    (match s.waveStartTime with
     | some t => decide (60 < now - t) && decide (s.enemies = 0)
     | none => false)

/-- The 30 s spawn-batch watchdog condition (PhysicsSystem.js
lines 1439-1443): a wave in progress with an armed batch timeout and a
last spawn more than 30 s ago. -/
def EnemySystem.spawnWatchdogFires (s : EnemySystem) (now : ℚ) : Bool :=
  s.waveInProgress && s.nextSpawnTimeout &&
    (match s.lastSpawnTime with
     | some ls => decide (30 < now - ls)
     | none => false)

/-- The wave-pacing section of `EnemySystem.update` (PhysicsSystem.js
lines 1406-1455), in source order: the 60 s watchdog zeroes the pending
count; an exhausted in-progress wave is completed, otherwise the
countdown advances and on expiry the next wave starts; an expired
countdown outside a wave also forces the next wave; finally the 30 s
watchdog cancels a stale batch timeout and either flushes every
remaining enemy now or, with an empty field and nothing pending,
completes the wave. -/
def EnemySystem.updateWavePacing (s : EnemySystem) (now dt : ℚ) : EnemySystem × List Effect :=
  let s1 := if s.waveWatchdogFires now then { s with enemiesRemaining := 0 } else s
  let p2 :=
    if s1.waveInProgress then
      if s1.enemies = 0 ∧ s1.enemiesRemaining = 0 then s1.completeWave else (s1, [])
    else
      let s1' := { s1 with timeUntilNextWave := s1.timeUntilNextWave - dt }
      if s1'.timeUntilNextWave ≤ 0 then (s1'.startNextWave now, []) else (s1', [])
  let p3 :=
    if p2.1.timeUntilNextWave ≤ 0 ∧ p2.1.waveInProgress = false then
      (p2.1.startNextWave now, p2.2)
    else p2
  let p4 :=
    if p3.1.spawnWatchdogFires now then
      let s3 : EnemySystem := { p3.1 with nextSpawnTimeout := false }
      if 0 < s3.enemiesRemaining then (s3.spawnWaveEnemies s3.enemiesRemaining now, p3.2)
      else if s3.enemies = 0 then
        let c := s3.completeWave
        (c.1, p3.2 ++ c.2)
      else (s3, p3.2)
    else p3
  p4

/-- The accounting events that touch the roster and the pending count
while a wave runs: a spawn callback fires and succeeds (push to the
roster, decrement the pending count, PhysicsSystem.js lines 1612-1634
with `spawnEnemy` succeeding at line 1757), a spawn callback fires and
fails (the decrement still happens, line 1630), or a dead enemy is
spliced out of the roster (lines 1475-1524). -/
inductive WaveEvent
  | spawnOk
  | spawnFail
  | enemyDeath
deriving DecidableEq

/-- Effect of one accounting event on the EnemySystem state. -/
def applyWaveEvent (s : EnemySystem) : WaveEvent → EnemySystem
  | WaveEvent.spawnOk =>
    { s with
      enemies := s.enemies + 1
      enemiesRemaining := s.enemiesRemaining - 1
      pendingSpawnCallbacks := s.pendingSpawnCallbacks - 1 }
  | WaveEvent.spawnFail =>
    { s with
      enemiesRemaining := s.enemiesRemaining - 1
      pendingSpawnCallbacks := s.pendingSpawnCallbacks - 1 }
  | WaveEvent.enemyDeath => { s with enemies := s.enemies - 1 }

/-- Run a sequence of accounting events. -/
def runWave (s : EnemySystem) : List WaveEvent → EnemySystem
  | [] => s
  | ev :: evs => runWave (applyWaveEvent s ev) evs

/-- Number of occurrences of an event in a trace. -/
def countEv (ev : WaveEvent) : List WaveEvent → ℕ
  | [] => 0
  | e :: l => (if e = ev then 1 else 0) + countEv ev l

/-- The state reached by starting wave 1 from the constructor state and
then having a single scheduled spawn callback fail. -/
def stateC2 : EnemySystem := applyWaveEvent (initSystem.startNextWave 1) WaveEvent.spawnFail

/-- The state reached by starting wave 1 from the constructor state,
spawning one enemy successfully and then having it die and be removed. -/
def stateC2b : EnemySystem :=
  runWave (initSystem.startNextWave 1) [WaveEvent.spawnOk, WaveEvent.enemyDeath]

/-- First cleanup loop of `EnemySystem.update` (PhysicsSystem.js
lines 1475-1487): every roster entry with `isAlive` false is disposed
and spliced out before the main enemy loop runs. -/
def EnemySystem.cleanupInvalid : List EnemyUnit → List EnemyUnit × List Effect
  | [] => ([], [])
  | e :: es =>
    let r := EnemySystem.cleanupInvalid es
    if e.isAlive = false then (r.1, Effect.enemyDisposed :: r.2) else (e :: r.1, r.2)

/-- Dead-enemy handling of the main enemy loop of `EnemySystem.update`
(PhysicsSystem.js lines 1490-1524), restricted to roster membership,
loot collection and events: an entry with `isAlive` false has
`enemy.die()` called on it for loot (credited only when some is
returned), is spliced out, and `enemyRemoved` is emitted; live entries
stay. -/
def EnemySystem.processDeadInRoster (r1 r2 : ℚ) :
    List EnemyUnit → List EnemyUnit × List Loot × List Effect
  | [] => ([], [], [])
  | e :: es =>
    let r := EnemySystem.processDeadInRoster r1 r2 es
    if e.isAlive = false then
      match (e.die r1 r2).2.1 with
      | some l => (r.1, l :: r.2.1, Effect.enemyRemoved :: r.2.2)
      | none => (r.1, r.2.1, Effect.enemyRemoved :: r.2.2)
    else
      (e :: r.1, r.2.1, r.2.2)

/-- Roster part of one `EnemySystem.update` pass: the invalid-enemy
cleanup loop followed by the dead-enemy handling of the main loop. -/
def EnemySystem.updateRoster (es : List EnemyUnit) (r1 r2 : ℚ) :
    List EnemyUnit × List Loot × List Effect :=
  let c := EnemySystem.cleanupInvalid es
  let p := EnemySystem.processDeadInRoster r1 r2 c.1
  (p.1, p.2.1, c.2 ++ p.2.2)

/-- EnemyUnit fixture for C4: alive with 5 health. -/
def enemyC4 : EnemyUnit :=
  { health := 5, maxHealth := 20, damage := 1, isAlive := true
    state := EnemyAIState.chase, experience := 10 }

/-- Objective fixture for C4: already destroyed (health 0). -/
def objectiveC4 : Objective := { health := 0, maxHealth := 1000 }

/-- EnemyUnit fixture for C5: alive with 10 health, about to take a
killing blow of 10. -/
def enemyC5 : EnemyUnit :=
  { health := 10, maxHealth := 10, damage := 2, isAlive := true
    state := EnemyAIState.chase, experience := 10 }

/-- EnemyUnit fixture for the C4 witness: a dead unit. -/
def deadEnemyC4 : EnemyUnit :=
  { health := -3, maxHealth := 20, damage := 1, isAlive := false
    state := EnemyAIState.die, experience := 10 }

/-- The fractional grid coordinate rewritten through `Int.fract`. -/
theorem gridCoord_eq_fract (t : ℚ) : gridCoord t = Int.fract (t / chunkSize) * 32 := by
  unfold gridCoord localCoord Int.fract chunkSize
  ring

/-- The fractional grid coordinate is non-negative. -/
theorem gridCoord_nonneg (t : ℚ) : 0 ≤ gridCoord t := by
  rw [gridCoord_eq_fract]
  exact mul_nonneg (Int.fract_nonneg _) (by norm_num)

/-- The fractional grid coordinate is below the resolution. -/
theorem gridCoord_lt (t : ℚ) : gridCoord t < 32 := by
  rw [gridCoord_eq_fract]
  calc Int.fract (t / chunkSize) * 32 < 1 * 32 := by
        exact mul_lt_mul_of_pos_right (Int.fract_lt_one _) (by norm_num)
    _ = 32 := one_mul 32

/-- The lower grid index always passes the bounds check of
`getHeightAt`. -/
theorem cellIndex0_bounds (t : ℚ) : 0 ≤ cellIndex0 t ∧ cellIndex0 t < 32 := by
  constructor
  · exact Int.floor_nonneg.mpr (gridCoord_nonneg t)
  · exact Int.floor_lt.mpr (by exact_mod_cast gridCoord_lt t)

/-- C1: for every query point, `getHeightAt` returns 0 when the
containing chunk (or its height map) is absent; when the chunk is
resident it returns exactly the bilinear interpolation
h00 (1-fx)(1-fz) + h10 fx (1-fz) + h01 (1-fx) fz + h11 fx fz of the four
stored grid samples around the fractional grid coordinates (with the
upper index clamped to 31); in particular, on a grid cell with stored
corner samples 1, 3, 5, 7 it returns 4 at the cell center and each
stored value at the matching corner. -/
theorem C1_heightAt_bilinear :
    (∀ w x z, w.chunks (chunkKeyOf x z) = none → World.getHeightAt w x z = 0)
    ∧ (∀ w x z c, w.chunks (chunkKeyOf x z) = some c → c.heightMap = none →
        World.getHeightAt w x z = 0)
    ∧ (∀ w x z c m, w.chunks (chunkKeyOf x z) = some c → c.heightMap = some m →
        World.getHeightAt w x z =
          hmAt m (cellIndex0 x) (cellIndex0 z) * (1 - fracCoord x) * (1 - fracCoord z)
          + hmAt m (cellIndex1 x) (cellIndex0 z) * fracCoord x * (1 - fracCoord z)
          + hmAt m (cellIndex0 x) (cellIndex1 z) * (1 - fracCoord x) * fracCoord z
          + hmAt m (cellIndex1 x) (cellIndex1 z) * fracCoord x * fracCoord z)
    ∧ World.getHeightAt worldC1 (25 / 32) (25 / 32) = 4
    ∧ World.getHeightAt worldC1 0 0 = 1
    ∧ World.getHeightAt worldC1 (50 / 32) 0 = 3
    ∧ World.getHeightAt worldC1 0 (50 / 32) = 5
    ∧ World.getHeightAt worldC1 (50 / 32) (50 / 32) = 7 := by
  refine ⟨?_, ?_, ?_, ?_, ?_, ?_, ?_, ?_⟩
  · intro w x z hc
    unfold World.getHeightAt
    rw [hc]
  · intro w x z c hc hm
    simp only [World.getHeightAt, hc, hm]
  · intro w x z c m hc hm
    simp only [World.getHeightAt, hc, hm]
    rw [if_neg]
    · ring
    · have hx := cellIndex0_bounds x
      have hz := cellIndex0_bounds z
      omega
  all_goals
    norm_num [World.getHeightAt, worldC1, chunkC1, chunkKeyOf, cellIndex0, cellIndex1,
      fracCoord, gridCoord, localCoord, hmAt, heightMapC1, chunkSize, List.getD]
  all_goals
    simp [Int.toNat_ofNat]
  all_goals
    norm_num

/-- C1 witness: the first conjunct applied at the C1 world outside the
resident chunk. -/
theorem C1_heightAt_bilinear_witness : World.getHeightAt worldC1 100 100 = 0 :=
  C1_heightAt_bilinear.1 worldC1 100 100 (by norm_num [worldC1, chunkKeyOf, chunkSize])

/-- The chunk recorded by `World.update` as the last observer chunk is
the one containing the given position. -/
theorem update_lastPlayerChunkCoords (w : World) (px pz : ℚ) (gen : ℤ × ℤ → Chunk) :
    (World.update w px pz gen).lastPlayerChunkCoords = some (chunkKeyOf px pz) := by
  unfold World.update
  by_cases h : w.lastPlayerChunkCoords = some (chunkKeyOf px pz)
  · rw [if_pos h]
    exact h
  · rw [if_neg h]
    rfl

/-- C3: the residency invariant holds initially, is preserved by every
observer update, and after any observer update a chunk key is resident
exactly when it lies in the (2 viewDistance + 1) squared view square
around the observer chunk; the map model makes residency
one-chunk-per-key by construction.  The last conjunct identifies the
view square with the coordinatewise distance bound. -/
theorem C3_chunk_residency :
    ResidencyInv initialWorld
    ∧ (∀ w px pz gen, ResidencyInv w → ResidencyInv (World.update w px pz gen))
    ∧ (∀ w px pz gen, ResidencyInv w →
        ∀ k, (World.update w px pz gen).Resident k ↔ inView (chunkKeyOf px pz) k = true)
    ∧ (∀ pc k : ℤ × ℤ, inView pc k = true ↔
        |k.1 - pc.1| ≤ viewDistance ∧ |k.2 - pc.2| ≤ viewDistance) := by
  have hres : ∀ w px pz gen, ResidencyInv w →
      ∀ k, (World.update w px pz gen).Resident k ↔ inView (chunkKeyOf px pz) k = true := by
    intro w px pz gen hinv k
    unfold World.update
    by_cases h : w.lastPlayerChunkCoords = some (chunkKeyOf px pz)
    · rw [if_pos h]
      exact hinv _ h k
    · rw [if_neg h]
      unfold World.updateChunksAroundPlayer World.Resident
      by_cases hv : inView (chunkKeyOf px pz) k = true
      · simp [hv]
      · simp [hv]
  refine ⟨?_, ?_, hres, ?_⟩
  · intro cc hcc k
    simp [initialWorld] at hcc
  · intro w px pz gen hinv cc hcc k
    have hlast := update_lastPlayerChunkCoords w px pz gen
    rw [hlast] at hcc
    obtain rfl : chunkKeyOf px pz = cc := Option.some_injective _ hcc
    exact hres w px pz gen hinv k
  · intro pc k
    unfold inView viewDistance
    simp only [Bool.and_eq_true, decide_eq_true_eq, abs_le]
    omega

/-- C3 witness: the residency iff applied at the initial world with a
constant chunk generator. -/
theorem C3_chunk_residency_witness :
    (World.update initialWorld 0 0 fun _ => chunkC1).Resident (1, 1) ↔
      inView (chunkKeyOf 0 0) (1, 1) = true :=
  C3_chunk_residency.2.2.1 initialWorld 0 0 (fun _ => chunkC1)
    (fun cc hcc => by simp [initialWorld] at hcc) (1, 1)

/-- C10: evicting a chunk leaves the flat object registry untouched, so
`checkInteraction` and `getObjectsNear` answer exactly as before the
eviction; concretely, after evicting the only resident chunk of the C10
world its tree is still returned by both queries. -/
theorem C10_registry_frame :
    (∀ w k, (World.removeChunk w k).objects = w.objects)
    ∧ (∀ w k p r, (World.removeChunk w k).checkInteraction p r = w.checkInteraction p r)
    ∧ (∀ w k p r, (World.removeChunk w k).getObjectsNear p r = w.getObjectsNear p r)
    ∧ ¬ (World.removeChunk worldC10 (0, 0)).Resident (0, 0)
    ∧ (World.removeChunk worldC10 (0, 0)).getObjectsNear ⟨0, 0, 0⟩ 10 = [treeObjC10]
    ∧ (World.removeChunk worldC10 (0, 0)).checkInteraction ⟨0, 0, 0⟩ 10 = some treeObjC10 := by
  have hobj : ∀ w k, (World.removeChunk w k).objects = w.objects := by
    intro w k
    unfold World.removeChunk
    rcases hk : w.chunks k with _ | c
    · rfl
    · rfl
  refine ⟨hobj, ?_, ?_, ?_, ?_, ?_⟩
  · intro w k p r
    unfold World.checkInteraction
    rw [hobj]
  · intro w k p r
    unfold World.getObjectsNear
    rw [hobj]
  · unfold World.Resident World.removeChunk
    simp [worldC10]
  · unfold World.getObjectsNear
    rw [hobj]
    norm_num [worldC10, treeObjC10, distanceLt, distSq, List.filter]
  · unfold World.checkInteraction
    rw [hobj]
    norm_num [worldC10, treeObjC10, distanceLt, distSq, List.find?]

/-- C9 counterexample: at the concrete world whose chunk (0,0) owns one
tree (id 7, no dispose method) with a pending respawn timer, the claim
fails: eviction neither disposes the tree nor cancels the timer. -/
theorem C9_counterexample : ¬ evictionClaimAt worldC9 (0, 0) [7] := by
  intro h
  have hc : worldC9.chunks (0, 0) = some chunkC9 := rfl
  unfold evictionClaimAt at h
  rw [hc] at h
  have hmem := h.1 treeObjC9 (by simp [chunkC9])
  have heff : World.removeChunkEffects worldC9 (0, 0) =
      [EvictEffect.disposeTerrain, EvictEffect.removePhysicsBody] := by
    simp [World.removeChunkEffects, hc, chunkC9, treeObjC9, worldC9, List.filter]
  rw [heff] at hmem
  simp [treeObjC9] at hmem

/-- C9 (amended): evicting a resident chunk removes it from the map,
disposes the terrain mesh when present, and releases the physics body
when physics is enabled and one is stored; but an owned object is
disposed only when its class defines a dispose method (which no
Tree or Rock does), and no respawn timer is ever cancelled. -/
theorem C9_evict_effects (w : World) (key : ℤ × ℤ) (c : Chunk)
    (hc : w.chunks key = some c) :
    (World.removeChunk w key).chunks key = none
    ∧ (c.hasTerrain = true → EvictEffect.disposeTerrain ∈ w.removeChunkEffects key)
    ∧ (w.physicsEnabled = true → w.terrainBodies key = true →
        EvictEffect.removePhysicsBody ∈ w.removeChunkEffects key)
    ∧ (∀ i, EvictEffect.disposeObject i ∈ w.removeChunkEffects key ↔
        ∃ o ∈ c.objects, o.hasDispose = true ∧ o.id = i)
    ∧ (∀ i, EvictEffect.cancelRespawnTimer i ∉ w.removeChunkEffects key) := by
  refine ⟨?_, ?_, ?_, ?_, ?_⟩
  · unfold World.removeChunk
    rw [hc]
    simp
  · intro ht
    unfold World.removeChunkEffects
    rw [hc]
    simp [ht]
  · intro hp hb
    unfold World.removeChunkEffects
    rw [hc]
    simp [hp, hb]
  · intro i
    unfold World.removeChunkEffects
    rw [hc]
    by_cases ht : c.hasTerrain = true <;>
      by_cases hq : (w.physicsEnabled = true ∧ w.terrainBodies key = true) <;>
        simp [ht, hq, List.mem_filter, and_assoc]
  · intro i
    unfold World.removeChunkEffects
    rw [hc]
    by_cases ht : c.hasTerrain = true <;>
      by_cases hq : (w.physicsEnabled = true ∧ w.terrainBodies key = true) <;>
        simp [ht, hq]

/-- C9 witness: the map-removal conjunct applied at the C9 world. -/
theorem C9_evict_effects_witness : (World.removeChunk worldC9 (0, 0)).chunks (0, 0) = none :=
  (C9_evict_effects worldC9 (0, 0) chunkC9 rfl).1

/-- Fresh tree with no pending respawn timer. -/
def treeS0 : TimedTree := { tree := Tree.new, pendingRespawn := none }

/-- First interaction, at time 0. -/
def treeStep1 : TimedTree × Option Reward := TimedTree.interact treeS0 0

/-- Second interaction, at time 1. -/
def treeStep2 : TimedTree × Option Reward := TimedTree.interact treeStep1.1 1

/-- Third interaction, at time 2. -/
def treeStep3 : TimedTree × Option Reward := TimedTree.interact treeStep2.1 2

/-- Fourth interaction, at time 3; this one depletes the tree. -/
def treeStep4 : TimedTree × Option Reward := TimedTree.interact treeStep3.1 3

/-- C8: interacting outside `canInteract` is a no-op returning no
reward; a fresh tree (health 100, decrement 25) yields amount 1 on each
of the first three interactions, is depleted by exactly the fourth,
which yields the full `resourceAmount` 3 and schedules the respawn
timer 30 s out; a fifth interaction while depleted changes nothing;
before the timer fires nothing changes, and once `respawnDelay` has
elapsed the tree is active again with health fully restored. -/
theorem C8_tree_depletion :
    (∀ s now, s.tree.interactionEnabled = false → TimedTree.interact s now = (s, none))
    ∧ treeStep1.2 = some { type := ResourceType.wood, amount := 1 }
    ∧ treeStep1.1.tree.health = 75 ∧ treeStep1.1.tree.interactionEnabled = true
    ∧ treeStep2.2 = some { type := ResourceType.wood, amount := 1 }
    ∧ treeStep2.1.tree.health = 50 ∧ treeStep2.1.tree.interactionEnabled = true
    ∧ treeStep3.2 = some { type := ResourceType.wood, amount := 1 }
    ∧ treeStep3.1.tree.health = 25 ∧ treeStep3.1.tree.interactionEnabled = true
    ∧ treeStep4.2 = some { type := ResourceType.wood, amount := 3 }
    ∧ treeStep4.1.tree.health = 0 ∧ treeStep4.1.tree.interactionEnabled = false
    ∧ treeStep4.1.tree.visible = false
    ∧ treeStep4.1.pendingRespawn = some 33
    ∧ TimedTree.interact treeStep4.1 5 = (treeStep4.1, none)
    ∧ TimedTree.elapseTo treeStep4.1 32 = treeStep4.1
    ∧ (TimedTree.elapseTo treeStep4.1 33).tree.health = 100
    ∧ (TimedTree.elapseTo treeStep4.1 33).tree.interactionEnabled = true
    ∧ (TimedTree.elapseTo treeStep4.1 33).tree.visible = true
    ∧ (TimedTree.elapseTo treeStep4.1 33).pendingRespawn = none := by
  have hnoop : ∀ s now, s.tree.interactionEnabled = false →
      TimedTree.interact s now = (s, none) := by
    intro s now h
    unfold TimedTree.interact Tree.interact Tree.canInteract
    rw [h]
    simp
  refine ⟨hnoop, ?_⟩
  norm_num [treeStep1, treeStep2, treeStep3, treeStep4, treeS0, TimedTree.interact,
    Tree.interact, Tree.canInteract, Tree.new, TimedTree.elapseTo, Tree.respawn]

/-- C8 witness: the no-op conjunct applied to the depleted tree. -/
theorem C8_tree_depletion_witness :
    TimedTree.interact treeStep4.1 5 = (treeStep4.1, none) :=
  C8_tree_depletion.1 treeStep4.1 5 (by
    norm_num [treeStep1, treeStep2, treeStep3, treeStep4, treeS0, TimedTree.interact,
      Tree.interact, Tree.canInteract, Tree.new])

/-- C4 counterexample: the killing blow on an EnemyUnit with 5 health
and 10 damage leaves health at -5 (no clamp at 0), and calling
`takeDamage` on the already destroyed Objective fires the destruction
handler again (post-death calls are not idempotent in effects). -/
theorem C4_counterexample :
    (EnemyUnit.takeDamage enemyC4 10 0 0).1.health < 0
    ∧ (Objective.takeDamage objectiveC4 5).2.2 ≠ [] := by
  constructor
  · norm_num [EnemyUnit.takeDamage, EnemyUnit.die, enemyC4]
  · norm_num [Objective.takeDamage, objectiveC4]

/-- C4 (amended): `takeDamage` on a dead EnemyUnit is a complete no-op
(same state, 0 dealt, no events) and a killing blow kills exactly once
with no event, but the EnemyUnit health is not clamped (it keeps the
negative overshoot); `AnimalUnit.takeDamage` clamps at 0, and repeated
non-negative damage after death leaves the unit unchanged;
`Objective.takeDamage` clamps at 0 but runs the destruction handler on
every call that ends at 0 health, including repeated calls after
destruction. -/
theorem C4_takeDamage_contracts :
    (∀ (e : EnemyUnit) a r1 r2, e.isAlive = false →
        EnemyUnit.takeDamage e a r1 r2 = (e, 0, []))
    ∧ (∀ (e : EnemyUnit) a r1 r2, e.isAlive = true →
        (EnemyUnit.takeDamage e a r1 r2).1.health = e.health - a)
    ∧ (∀ (e : EnemyUnit) a r1 r2, e.isAlive = true → e.health - a ≤ 0 →
        (EnemyUnit.takeDamage e a r1 r2).1.isAlive = false
        ∧ (EnemyUnit.takeDamage e a r1 r2).2.2 = [])
    ∧ (∀ (u : AnimalUnit) a, (AnimalUnit.takeDamage u a).health = max 0 (u.health - a))
    ∧ (∀ (u : AnimalUnit) a, 0 ≤ a → u.health = 0 → AnimalUnit.takeDamage u a = u)
    ∧ (∀ (o : Objective) a, (Objective.takeDamage o a).1.health = max 0 (o.health - a))
    ∧ (∀ (o : Objective) a, o.health ≤ 0 → 0 ≤ a →
        (Objective.takeDamage o a).2.2 = [Effect.gameOverShown]) := by
  refine ⟨?_, ?_, ?_, ?_, ?_, ?_, ?_⟩
  · intro e a r1 r2 h
    unfold EnemyUnit.takeDamage
    rw [h]
    simp
  · intro e a r1 r2 h
    unfold EnemyUnit.takeDamage EnemyUnit.die
    by_cases hh : e.health - a ≤ 0 <;> simp [h, hh]
  · intro e a r1 r2 h hh
    unfold EnemyUnit.takeDamage EnemyUnit.die
    simp [h, hh]
  · intro u a
    unfold AnimalUnit.takeDamage
    by_cases h : u.health - a ≤ 0
    · simp only [h, if_pos]
      exact (max_eq_left h).symm
    · simp only [h, if_neg, not_false_iff]
      exact (max_eq_right (le_of_not_le h)).symm
  · intro u a ha h0
    have hle : u.health - a ≤ 0 := by rw [h0]; linarith
    unfold AnimalUnit.takeDamage
    simp only [hle, if_pos]
    cases u
    simp_all
  · intro o a
    unfold Objective.takeDamage
    by_cases h : max 0 (o.health - a) ≤ 0 <;> simp [h]
  · intro o a h ha
    have hm : max 0 (o.health - a) ≤ 0 := max_le le_rfl (by linarith)
    unfold Objective.takeDamage
    simp [hm]

/-- C4 witness: the dead-unit no-op conjunct applied at a concrete dead
enemy. -/
theorem C4_takeDamage_contracts_witness :
    EnemyUnit.takeDamage deadEnemyC4 7 0 0 = (deadEnemyC4, 0, []) :=
  C4_takeDamage_contracts.1 deadEnemyC4 7 0 0 rfl

/-- C5: the killing blow kills the enemy but emits nothing, because
`takeDamage` sets `isAlive` to false before calling `die()` and the
double-call guard of `die()` then returns immediately; every later
`die()` call (such as the one the director makes for loot) also returns
no loot; the director removes the dead enemy through the invalid-enemy
cleanup pass, crediting no loot and emitting no `enemyRemoved` event.
By contrast, calling `die()` directly on a live enemy does return a
loot payload, which shows the loot path the slip disables. -/
theorem C5_death_loot_lost :
    (EnemyUnit.takeDamage enemyC5 10 0 0).1.isAlive = false
    ∧ (EnemyUnit.takeDamage enemyC5 10 0 0).2.2 = []
    ∧ (EnemyUnit.die (EnemyUnit.takeDamage enemyC5 10 0 0).1 0 0).2.1 = none
    ∧ EnemySystem.updateRoster [(EnemyUnit.takeDamage enemyC5 10 0 0).1] 0 0
        = ([], [], [Effect.enemyDisposed])
    ∧ (EnemyUnit.die enemyC5 (1 / 2) (1 / 2)).2.1 =
        some { experience := 10, resType := ResourceType.wood, resAmount := 2 } := by
  norm_num [EnemyUnit.takeDamage, EnemyUnit.die, enemyC5, EnemySystem.updateRoster,
    EnemySystem.cleanupInvalid, EnemySystem.processDeadInRoster]

/-- Accounting effect of a whole event trace: each spawn keeps the
live-plus-pending sum, each failed spawn and each death removal lowers
it by one. -/
theorem runWave_acct (evs : List WaveEvent) :
    ∀ s : EnemySystem, (runWave s evs).enemies + (runWave s evs).enemiesRemaining
      = s.enemies + s.enemiesRemaining
        - (countEv WaveEvent.spawnFail evs : ℤ) - (countEv WaveEvent.enemyDeath evs : ℤ) := by
  induction evs with
  | nil =>
    intro s
    simp [runWave, countEv]
  | cons ev l ih =>
    intro s
    rw [runWave, ih]
    cases ev <;> simp [applyWaveEvent, countEv] <;> ring

/-- C2 counterexample: immediately after wave 1 starts (from the
constructor state, so the roster is empty), a single failed spawn
callback leaves live + pending = 6 while the wave total is 7; likewise
one successful spawn followed by that enemy dying leaves the sum at 6.
The claimed equality fails in both cases. -/
theorem C2_counterexample :
    stateC2.enemies + stateC2.enemiesRemaining ≠ enemiesForWave stateC2.waveNumber
    ∧ stateC2b.enemies + stateC2b.enemiesRemaining ≠ enemiesForWave stateC2b.waveNumber := by
  constructor <;> decide

/-- C2 (amended): from the moment a wave starts, live roster size plus
pending spawn count equals the leftover roster at wave start plus the
wave total min(5 + 2 wave, 30), minus one for every failed spawn
callback and one for every dead-enemy removal since the wave started;
in particular the sum is not an invariant equal to the wave total:
each failure and each death lowers it. -/
theorem C2_wave_accounting (s0 : EnemySystem) (now : ℚ) (evs : List WaveEvent) :
    (runWave (s0.startNextWave now) evs).enemies
      + (runWave (s0.startNextWave now) evs).enemiesRemaining
    = s0.enemies + enemiesForWave (s0.waveNumber + 1)
      - (countEv WaveEvent.spawnFail evs : ℤ) - (countEv WaveEvent.enemyDeath evs : ℤ) := by
  rw [runWave_acct]
  simp [EnemySystem.startNextWave]

/-- A follow-up batch is never empty while enemies remain. -/
theorem nextBatchSize_pos (w rem : ℕ) (h : 0 < rem) : 1 ≤ nextBatchSize w rem := by
  unfold nextBatchSize
  omega

/-- A follow-up batch never exceeds the residual count. -/
theorem nextBatchSize_le (w rem : ℕ) : nextBatchSize w rem ≤ rem := by
  unfold nextBatchSize
  omega

/-- The follow-up batches spawn exactly the residual count in total:
the batch recursion terminates with nothing left over. -/
theorem batchSizes_sum (w : ℕ) : ∀ rem, (batchSizes w rem).sum = rem := by
  intro rem
  induction rem using Nat.strong_induction_on with
  | _ rem ih =>
    match rem with
    | 0 => simp [batchSizes]
    | r + 1 =>
      rw [batchSizes]
      simp only [List.sum_cons]
      have h1 := nextBatchSize_pos w (r + 1) (Nat.succ_pos r)
      have h2 := nextBatchSize_le w (r + 1)
      rw [ih (r + 1 - nextBatchSize w (r + 1)) (by omega)]
      omega

/-- The C6 pacing property at wave number `w` and inter-batch random
draw `r`: the wave total is min(5 + 2 w, 30); the initial burst has
min(3 + floor(w/2), 10) spawns, consecutive ones scheduled 500 ms
apart, and never exceeds the wave total (so each burst spawn finds a
positive pending count); the follow-up batches each take
min(1 + floor(w/3), residual, 3) enemies, are non-empty, and consume
exactly the residual count; the delay between batches lies in the 4-8 s
window. -/
def C6Prop (w : ℕ) (r : ℚ) : Prop :=
  enemiesForWave w = min (5 + 2 * (w : ℤ)) 30
  ∧ (initialSpawnDelays w).length = min (3 + w / 2) 10
  ∧ (∀ i, i + 1 < (initialSpawnDelays w).length →
      (initialSpawnDelays w).getD (i + 1) 0 = (initialSpawnDelays w).getD i 0 + 500)
  ∧ (initialSpawnCount w : ℤ) ≤ enemiesForWave w
  ∧ (∀ rem, (batchSizes w rem).sum = rem)
  ∧ (∀ rem, 0 < rem →
      batchSizes w rem = nextBatchSize w rem :: batchSizes w (rem - nextBatchSize w rem))
  ∧ (∀ rem, 0 < rem → 1 ≤ nextBatchSize w rem
      ∧ nextBatchSize w rem = min (min (1 + w / 3) rem) 3)
  ∧ (0 ≤ r → r < 1 → 4000 ≤ interBatchDelay r ∧ interBatchDelay r < 8000)

/-- C6: the wave pacing parameters and schedule shape are as specified,
for every wave number and every inter-batch random draw. -/
theorem C6_wave_pacing (w : ℕ) (r : ℚ) : C6Prop w r := by
  refine ⟨?_, ?_, ?_, ?_, batchSizes_sum w, ?_, ?_, ?_⟩
  · unfold enemiesForWave
    ring_nf
  · simp [initialSpawnDelays, initialSpawnCount]
  · intro i h
    simp only [initialSpawnDelays, List.length_map, List.length_range] at h
    simp [initialSpawnDelays, List.getD, List.getElem?_map, List.getElem?_range,
      h, (by omega : i < initialSpawnCount w)]
    ring
  · unfold initialSpawnCount enemiesForWave
    push_cast [Nat.cast_min]
    omega
  · intro rem h
    match rem, h with
    | r + 1, _ => rw [batchSizes]
  · intro rem h
    refine ⟨nextBatchSize_pos w rem h, rfl⟩
  · intro h0 h1
    unfold interBatchDelay
    constructor
    · have := mul_nonneg h0 (by norm_num : (0 : ℚ) ≤ 4000)
      linarith
    · have := mul_lt_mul_of_pos_right h1 (by norm_num : (0 : ℚ) < 4000)
      linarith

/-- C6 witness: the pacing property at wave 1 with random draw 1/2. -/
theorem C6_wave_pacing_witness : C6Prop 1 (1 / 2) := C6_wave_pacing 1 (1 / 2)

/-- C7: the wave-pacing update never leaves a wave permanently blocked.
First, when a wave has run for more than 60 s with no live enemies, the
update force-completes it in the same pass: the wave ends, nothing is
left pending, the batch timeout is cleared, and the completion reward
(3 wood per wave number, since nothing pending counts) is credited, so
the wave counts as won.  Second, when an armed spawn batch has not
fired for more than 30 s (and the 60 s watchdog does not intervene)
while spawns remain, the stale timeout is cancelled and every remaining
enemy is scheduled to spawn immediately: the last-spawn time becomes
now, the pending callbacks grow by the whole remaining count, and a
fresh batch timeout is armed.  Third, a wave with empty field and no
pending spawns always completes, clearing the timeout. -/
theorem C7_watchdogs :
    (∀ (s : EnemySystem) (now dt t : ℚ), s.waveInProgress = true →
      s.waveStartTime = some t → 60 < now - t → s.enemies = 0 →
      (s.updateWavePacing now dt).1.waveInProgress = false
      ∧ (s.updateWavePacing now dt).1.enemiesRemaining = 0
      ∧ (s.updateWavePacing now dt).1.nextSpawnTimeout = false
      ∧ Effect.addItem ResourceType.wood ((s.waveNumber : ℤ) * 3) ∈ (s.updateWavePacing now dt).2)
    ∧ (∀ (s : EnemySystem) (now dt ls : ℚ), s.waveInProgress = true →
      s.nextSpawnTimeout = true → s.lastSpawnTime = some ls → 30 < now - ls →
      0 < s.enemiesRemaining → s.waveWatchdogFires now = false →
      (s.updateWavePacing now dt).1.lastSpawnTime = some now
      ∧ (s.updateWavePacing now dt).1.pendingSpawnCallbacks
          = s.pendingSpawnCallbacks + s.enemiesRemaining.toNat
      ∧ (s.updateWavePacing now dt).1.waveInProgress = true
      ∧ (s.updateWavePacing now dt).1.nextSpawnTimeout = true)
    ∧ (∀ (s : EnemySystem) (now dt : ℚ), s.waveInProgress = true → s.enemies = 0 →
      s.enemiesRemaining = 0 →
      (s.updateWavePacing now dt).1.waveInProgress = false
      ∧ (s.updateWavePacing now dt).1.nextSpawnTimeout = false) := by
  refine ⟨?_, ?_, ?_⟩
  · intro s now dt t hW hT0 h60 hE
    have hw : s.waveWatchdogFires now = true := by
      simp [EnemySystem.waveWatchdogFires, hW, hT0, h60, hE]
    have hpos : ¬ (20 + (s.waveNumber : ℚ) * 2 ≤ 0) := by
      push_neg
      positivity
    unfold EnemySystem.updateWavePacing EnemySystem.completeWave EnemySystem.spawnWatchdogFires
    simp [hw, hW, hE, hpos]
  · intro s now dt ls hW hT hLs h30 hRem h60
    have hsw : s.spawnWatchdogFires now = true := by
      simp [EnemySystem.spawnWatchdogFires, hW, hT, hLs, h30]
    have hne : ¬ (s.enemiesRemaining = 0) := by omega
    unfold EnemySystem.updateWavePacing EnemySystem.spawnWaveEnemies
    simp [h60, hW, hne, hsw, hRem, min_self]
  · intro s now dt hW hE hR
    have hpos : ¬ (20 + (s.waveNumber : ℚ) * 2 ≤ 0) := by
      push_neg
      positivity
    cases hw : s.waveWatchdogFires now
    · unfold EnemySystem.updateWavePacing EnemySystem.completeWave EnemySystem.spawnWatchdogFires
      simp [hw, hW, hE, hR, hpos]
    · unfold EnemySystem.updateWavePacing EnemySystem.completeWave EnemySystem.spawnWatchdogFires
      simp [hw, hW, hE, hR, hpos]

/-- C7 witness: the 60 s force-completion applied to a concrete stuck
wave (wave 1, started at time 0, queried at time 61, empty field, three
enemies still pending). -/
theorem C7_watchdogs_witness :
    (EnemySystem.updateWavePacing
        { enemies := 0, enemiesRemaining := 3, waveNumber := 1, waveInProgress := true
          timeUntilNextWave := 0, nextSpawnTimeout := true
          waveStartTime := some 0, lastSpawnTime := some 0, pendingSpawnCallbacks := 0 }
        61 (1 / 60)).1.waveInProgress = false
    ∧ (EnemySystem.updateWavePacing
        { enemies := 0, enemiesRemaining := 3, waveNumber := 1, waveInProgress := true
          timeUntilNextWave := 0, nextSpawnTimeout := true
          waveStartTime := some 0, lastSpawnTime := some 0, pendingSpawnCallbacks := 0 }
        61 (1 / 60)).1.enemiesRemaining = 0 := by
  have h := C7_watchdogs.1
    { enemies := 0, enemiesRemaining := 3, waveNumber := 1, waveInProgress := true
      timeUntilNextWave := 0, nextSpawnTimeout := true
      waveStartTime := some 0, lastSpawnTime := some 0, pendingSpawnCallbacks := 0 }
    61 (1 / 60) 0 rfl rfl (by norm_num) rfl
  exact ⟨h.1, h.2.1⟩

end VibeGame
